import Mathlib

/-!
Verification development for the fun-launch token-launch front-end:
the pool-fee aggregation, the batched claim orchestrator of the admin
dashboard, the server- and client-side pools caches, and the API
request handlers for claiming fees and looking up balances.

All minor-unit amounts (lamports, base-token units) travel through the
source as decimal strings parsed into arbitrary-precision `BN` values;
they are modelled as `Nat`. External collaborators (the RPC connection,
the bonding-curve SDK client, the wallet signer, `JSON.parse`) are
modelled as oracle parameters returning `Except` or `Option`.
-/

/-- Per-pool fee snapshot, mirroring the `FeeMetrics` type of
`src/pages/admin.tsx` (all six fee fields are decimal strings of
minor-unit integers in the source, modelled as `Nat`). -/
structure FeeMetrics where
  poolAddress : String
  partnerBaseFee : Nat
  partnerQuoteFee : Nat
  creatorBaseFee : Nat
  creatorQuoteFee : Nat
  totalTradingBaseFee : Nat
  totalTradingQuoteFee : Nat
deriving DecidableEq, Repr

/-- The four summed totals computed by `AdminDashboard` in
`src/pages/admin.tsx` lines 248-251 (one `fees.reduce` with `BN.add`
per field, all starting from `new BN(0)`). -/
structure FeeTotals where
  totalPartnerQuoteFee : Nat
  totalPartnerBaseFee : Nat
  totalCreatorQuoteFee : Nat
  totalCreatorBaseFee : Nat
deriving DecidableEq, Repr

/-- Fee aggregation of `AdminDashboard`: each total is
`fees.reduce((sum, f) => sum.add(new BN(f.field)), new BN(0))`,
a left fold with arbitrary-precision addition. -/
def aggregateFees (fees : List FeeMetrics) : FeeTotals :=
  { totalPartnerQuoteFee := fees.foldl (fun sum f => sum + f.partnerQuoteFee) 0
    totalPartnerBaseFee := fees.foldl (fun sum f => sum + f.partnerBaseFee) 0
    totalCreatorQuoteFee := fees.foldl (fun sum f => sum + f.creatorQuoteFee) 0
    totalCreatorBaseFee := fees.foldl (fun sum f => sum + f.creatorBaseFee) 0 }

/-- A left fold accumulating `g` over a list equals the initial value
plus the sum of the mapped list. -/
theorem foldl_add_eq_sum (g : FeeMetrics → Nat) (l : List FeeMetrics) (n : Nat) :
    l.foldl (fun sum f => sum + g f) n = n + (l.map g).sum := by
  induction l generalizing n with
  | nil => simp
  | cons f rest ih => simp [List.foldl_cons, ih, Nat.add_assoc]

/-- Each aggregated total is the sum of the corresponding field over
the record list. -/
theorem aggregateFees_eq_sum (fees : List FeeMetrics) :
    aggregateFees fees =
      { totalPartnerQuoteFee := (fees.map (fun f => f.partnerQuoteFee)).sum
        totalPartnerBaseFee := (fees.map (fun f => f.partnerBaseFee)).sum
        totalCreatorQuoteFee := (fees.map (fun f => f.creatorQuoteFee)).sum
        totalCreatorBaseFee := (fees.map (fun f => f.creatorBaseFee)).sum } := by
  simp [aggregateFees, foldl_add_eq_sum]

/-- Concrete record holding the boundary value 2^53 + 1 in the partner
fee fields (the source stores it as the decimal string
"9007199254740993"). -/
def bigFeeRecord : FeeMetrics :=
  ⟨"PoolBig11111111111111111111111111111111111111", 9007199254740993, 9007199254740993, 0, 0, 0, 0⟩

/-- Concrete record holding 1 in the partner fee fields. -/
def oneFeeRecord : FeeMetrics :=
  ⟨"PoolOne11111111111111111111111111111111111111", 1, 1, 0, 0, 0, 0⟩

/-- Error raised by one step of the per-pool claim pipeline of
`claimAllFees` (draft request rejected, wallet signing rejected, or
transaction submission rejected); each iteration's try block fails
with exactly one of these. -/
inductive ClaimError where
  | draftError (msg : String)
  | signError (msg : String)
  | submitError (msg : String)
deriving DecidableEq, Repr

/-- Outcome of one run of `claimAllFees`: either the early return taken
when no pool meets the threshold (the "No fees to claim" toast, before
any counters exist), or the completed batch with its two counters. -/
inductive ClaimAllOutcome where
  | nothingToClaim
  | completed (successCount failCount : Nat)
deriving DecidableEq, Repr

/-- Result of a `claimAllFees` run together with the pool addresses the
loop body ran for, in iteration order. -/
structure ClaimAllRun where
  outcome : ClaimAllOutcome
  attempted : List String
deriving DecidableEq, Repr

/-- Eligibility filter of `claimAllFees` (`src/pages/admin.tsx` lines
161-165): keep the records whose `partnerQuoteFee`, parsed as a `BN`,
satisfies `quoteFee.gte(MIN_SOL_THRESHOLD)`. -/
def poolsWithFees (fees : List FeeMetrics) (minSolThresholdLamports : Nat) :
    List FeeMetrics :=
  fees.filter (fun f => minSolThresholdLamports ≤ f.partnerQuoteFee)

/-- The sequential `for (const feeMetric of poolsWithFees)` loop of
`claimAllFees` (lines 178-226): each iteration runs the draft/sign/
submit pipeline (the `attempt` oracle); the try block reaching its end
increments `successCount`, any thrown error is caught and increments
`failCount`, and the loop always continues with the next record. The
third component records the pool address of every iteration that ran,
in order. -/
def claimLoop (attempt : FeeMetrics → Except ClaimError String) :
    List FeeMetrics → Nat → Nat → List String → Nat × Nat × List String
  | [], successCount, failCount, attempted => (successCount, failCount, attempted.reverse)
  | feeMetric :: rest, successCount, failCount, attempted =>
    match attempt feeMetric with
    | .ok _ =>
      claimLoop attempt rest (successCount + 1) failCount (feeMetric.poolAddress :: attempted)
    | .error _ =>
      claimLoop attempt rest successCount (failCount + 1) (feeMetric.poolAddress :: attempted)

/-- The batched claim orchestrator `claimAllFees` of
`src/pages/admin.tsx` lines 151-239: filter the records by the
threshold, return early with the "nothing to claim" signal when the
filtered list is empty, otherwise run the sequential loop starting from
`successCount = 0` and `failCount = 0`. -/
def claimAllFees (fees : List FeeMetrics) (minSolThresholdLamports : Nat)
    (attempt : FeeMetrics → Except ClaimError String) : ClaimAllRun :=
  let pools := poolsWithFees fees minSolThresholdLamports
  if pools.isEmpty then
    { outcome := .nothingToClaim, attempted := [] }
  else
    let r := claimLoop attempt pools 0 0 []
    { outcome := .completed r.1 r.2.1, attempted := r.2.2 }

/-- Whether the pipeline oracle succeeds on a record (the try block of
the loop body runs to completion). -/
def attemptSucceeds (attempt : FeeMetrics → Except ClaimError String)
    (f : FeeMetrics) : Bool :=
  match attempt f with
  | .ok _ => true
  | .error _ => false

/-- Closed form of `claimLoop`: the counters grow by the number of
succeeding and failing records respectively, and the trace lists every
record's pool address in order. -/
theorem claimLoop_spec (attempt : FeeMetrics → Except ClaimError String)
    (l : List FeeMetrics) (s f : Nat) (tr : List String) :
    claimLoop attempt l s f tr =
      (s + l.countP (attemptSucceeds attempt),
       f + l.countP (fun r => !attemptSucceeds attempt r),
       tr.reverse ++ l.map (fun r => r.poolAddress)) := by
  induction l generalizing s f tr with
  | nil => simp [claimLoop]
  | cons r rest ih =>
    simp only [claimLoop]
    cases h : attempt r with
    | ok v =>
      have hs : attemptSucceeds attempt r = true := by simp [attemptSucceeds, h]
      rw [ih]
      simp [List.countP_cons, hs]
      omega
    | error e =>
      have hs : attemptSucceeds attempt r = false := by simp [attemptSucceeds, h]
      simp [List.countP_cons, hs]
      rw [ih, Prod.mk.injEq, Prod.mk.injEq]
      refine ⟨by omega, by omega, by simp⟩

/-- On a non-empty eligible set, `claimAllFees` completes the batch:
the counters are the numbers of succeeding and failing eligible
records, and every eligible record is attempted, in order. -/
theorem claimAllFees_nonempty (fees : List FeeMetrics) (t : Nat)
    (attempt : FeeMetrics → Except ClaimError String)
    (h : poolsWithFees fees t ≠ []) :
    claimAllFees fees t attempt =
      { outcome := .completed
          ((poolsWithFees fees t).countP (attemptSucceeds attempt))
          ((poolsWithFees fees t).countP (fun r => !attemptSucceeds attempt r))
        attempted := (poolsWithFees fees t).map (fun r => r.poolAddress) } := by
  simp only [claimAllFees, claimLoop_spec]
  simp [List.isEmpty_iff, h]

/-- Metadata block attached to a pool record by the `getAsset` lookup
of `src/pages/api/pools/get-all.ts` (all four fields default to
strings, possibly empty). -/
structure PoolMetadata where
  name : String
  symbol : String
  website : String
  logo : String
deriving DecidableEq, Repr

/-- Pool record shape produced by `get-all.ts` (reserve amounts are
`BN` values serialized as decimal strings, modelled as `Nat`;
`metadata` is `null` when the asset lookup yields nothing or fails). -/
structure PoolRecord where
  address : String
  config : String
  baseMint : String
  creator : String
  baseReserve : Nat
  quoteReserve : Nat
  metadata : Option PoolMetadata
deriving DecidableEq, Repr

/-- The module-level cache slot of `get-all.ts`
(`let cachedData: { pools; timestamp } | null`). -/
structure CachedData where
  pools : List PoolRecord
  timestamp : Nat
deriving DecidableEq, Repr

/-- CACHE_DURATION_MS of both cache variants: 60 * 1000 ms. -/
def CACHE_DURATION_MS : Nat := 60 * 1000

/-- Success body of the pools endpoint:
`{ pools, count, cached, cacheAge? }`. -/
structure PoolsSuccessBody where
  pools : List PoolRecord
  count : Nat
  cached : Bool
  cacheAge : Option Nat
deriving DecidableEq, Repr

/-- A JSON response of the pools endpoint: either a success body or an
`{ error, details? }` body, each with its HTTP status. -/
inductive PoolsResponse where
  | ok (status : Nat) (body : PoolsSuccessBody)
  | err (status : Nat) (error : String) (details : Option String)
deriving DecidableEq, Repr

/-- One invocation of the pools handler: the response sent, the cache
slot after the call, and how many times the Remote Data Source
(`client.state.getPoolsByConfig`) was invoked. -/
structure GetAllPoolsOutcome where
  response : PoolsResponse
  newCache : Option CachedData
  remoteCalls : Nat
deriving DecidableEq, Repr

/-- Fetch-and-repopulate path of the pools handler (`get-all.ts` lines
37-132), reached when no fresh cache entry exists: check the two
required environment variables, then invoke the remote source once;
on success store a new cache entry stamped with the fetch-completion
time and answer `cached := false`; on failure answer 500 and leave the
cache slot untouched. The per-pool metadata enrichment is folded into
the `remote` oracle because its failures are absorbed per pool
(`metadata := null`) and never fail the request. -/
def getAllPoolsFetch (envOk : Bool) (cachedData : Option CachedData)
    (fetchTime : Nat) (remote : Except String (List PoolRecord)) :
    GetAllPoolsOutcome :=
  if !envOk then
    { response := .err 500 "Server configuration error"
        (some "Missing required environment variables")
      newCache := cachedData
      remoteCalls := 0 }
  else
    match remote with
    | .ok pools =>
      { response := .ok 200
          { pools := pools, count := pools.length, cached := false, cacheAge := none }
        newCache := some { pools := pools, timestamp := fetchTime }
        remoteCalls := 1 }
    | .error msg =>
      { response := .err 500 "Failed to fetch pools" (some msg)
        newCache := cachedData
        remoteCalls := 1 }

/-- The pools endpoint handler of `get-all.ts`: reject non-GET methods,
serve the cached payload with `cached := true` and its age in seconds
whenever the stored entry satisfies `now - timestamp <
CACHE_DURATION_MS`, and fall through to the fetch path otherwise.
(The source compares with JS number subtraction; `Nat` truncated
subtraction agrees with it on the `< CACHE_DURATION_MS` test, both
treating a timestamp at or beyond `now` as fresh.) -/
def getAllPoolsHandler (method : String) (envOk : Bool)
    (cachedData : Option CachedData) (now fetchTime : Nat)
    (remote : Except String (List PoolRecord)) : GetAllPoolsOutcome :=
  if method ≠ "GET" then
    { response := .err 405 "Method not allowed" none
      newCache := cachedData
      remoteCalls := 0 }
  else
    match cachedData with
    | some c =>
      if now - c.timestamp < CACHE_DURATION_MS then
        { response := .ok 200
            { pools := c.pools, count := c.pools.length, cached := true
              cacheAge := some ((now - c.timestamp) / 1000) }
          newCache := some c
          remoteCalls := 0 }
      else
        getAllPoolsFetch envOk (some c) fetchTime remote
    | none => getAllPoolsFetch envOk none fetchTime remote


/-- React state of `PoolsCacheProvider`
(`src/contexts/PoolsCacheProvider.tsx`): the pool list, the error
message slot (`null` initially), and `lastFetch` (`number | null`). -/
structure ClientPoolsState where
  pools : List PoolRecord
  errorMsg : Option String
  lastFetch : Option Nat
deriving DecidableEq, Repr

/-- Initial provider state: `pools = []`, `error = null`,
`lastFetch = null`. -/
def initialClientPoolsState : ClientPoolsState :=
  { pools := [], errorMsg := none, lastFetch := none }

/-- The value stored under the fixed localStorage key
`trenchfun_pools_cache`: `{ pools, timestamp }`. -/
structure StoredPoolsCache where
  pools : List PoolRecord
  timestamp : Nat
deriving DecidableEq, Repr

/-- The mount effect of `PoolsCacheProvider` (lines 38-55): read the
fixed key from localStorage; if present, `JSON.parse` it (the `parse`
oracle, `none` when parsing throws, in which case the surrounding
catch only logs and the state is untouched); adopt the stored pools
and timestamp only when the entry is still within the TTL. -/
def loadPoolsFromStorage (stored : Option String)
    (parse : String → Option StoredPoolsCache) (now : Nat) :
    ClientPoolsState :=
  match stored with
  | none => initialClientPoolsState
  | some raw =>
    match parse raw with
    | none => initialClientPoolsState
    | some sc =>
      if now - sc.timestamp < CACHE_DURATION_MS then
        { pools := sc.pools, errorMsg := none, lastFetch := some sc.timestamp }
      else
        initialClientPoolsState

/-- JS truthiness test `lastFetch && (now - lastFetch) <
CACHE_DURATION_MS` guarding the early return of `fetchPools` (line
60): `lastFetch` must be non-null and nonzero (0 is falsy in JS), and
the entry must be within the TTL. -/
def lastFetchFresh (lastFetch : Option Nat) (now : Nat) : Bool :=
  match lastFetch with
  | none => false
  | some t => t != 0 && now - t < CACHE_DURATION_MS

/-- One invocation of the provider's `fetchPools`: the provider state
after the call, the `{ pools, timestamp }` value written to
localStorage (if any), and how many times `/api/pools/get-all` was
fetched. -/
structure FetchPoolsOutcome where
  state : ClientPoolsState
  storageWrite : Option StoredPoolsCache
  remoteCalls : Nat
deriving DecidableEq, Repr

/-- The provider's `fetchPools` (lines 57-100): return immediately
when `forceRefresh` is false and the last fetch is still fresh;
otherwise fetch the endpoint once (the `remote` oracle, whose failure
covers both a network error and a non-ok response body): on success
replace the pools, stamp `lastFetch` with the fetch-completion time
and persist the entry; on failure store the error message and leave
pools and `lastFetch` as they were. -/
def fetchPools (st : ClientPoolsState) (forceRefresh : Bool)
    (now fetchTime : Nat) (remote : Except String (List PoolRecord)) :
    FetchPoolsOutcome :=
  if !forceRefresh && lastFetchFresh st.lastFetch now then
    { state := st, storageWrite := none, remoteCalls := 0 }
  else
    match remote with
    | .ok pools =>
      { state := { pools := pools, errorMsg := none, lastFetch := some fetchTime }
        storageWrite := some { pools := pools, timestamp := fetchTime }
        remoteCalls := 1 }
    | .error msg =>
      { state := { pools := st.pools, errorMsg := some msg, lastFetch := st.lastFetch }
        storageWrite := none
        remoteCalls := 1 }

/-- JS truthiness of an optional string (`!x` is true for both
`undefined` and the empty string). -/
def strTruthy : Option String → Bool
  | none => false
  | some s => s != ""

/-- Request body of the admin claim-fees endpoint; each field may be
absent from the posted JSON. `maxBaseAmount` and `maxQuoteAmount` are
decimal strings in the source and are only checked against
`undefined`, never for emptiness. -/
structure ClaimFeesBody where
  poolAddress : Option String
  payerAddress : Option String
  maxBaseAmount : Option String
  maxQuoteAmount : Option String
deriving DecidableEq, Repr

/-- One invocation of the admin claim-fees handler: HTTP status, the
`error` field of the body (if any), the base64 transaction returned
(if any), and how many times the SDK transaction builder
(`client.partner.claimPartnerTradingFee`) was invoked. -/
structure ClaimFeesOutcome where
  status : Nat
  error : Option String
  transaction : Option String
  buildCalls : Nat
deriving DecidableEq, Repr

/-- The admin claim-fees handler (the `/api/admin/claim-fees` route):
reject non-POST, then the missing `RPC_URL` and `ADMIN_ADDRESS`
checks, then the required-fields check, then construct the three
public keys (the `parseKey` oracle; a constructor throw lands in the
catch-all 500), then refuse with 403 when the payer address string
differs from the configured admin address, and only then build,
stamp and serialize the claim transaction (the `buildTx` oracle,
covering `claimPartnerTradingFee`, `getLatestBlockhash` and
`serialize`). -/
def claimFeesHandler (method : String) (rpcUrl adminAddress : Option String)
    (body : ClaimFeesBody) (parseKey : String → Option Nat)
    (buildTx : Except String String) : ClaimFeesOutcome :=
  if method ≠ "POST" then
    { status := 405, error := some "Method not allowed", transaction := none, buildCalls := 0 }
  else if !strTruthy rpcUrl then
    { status := 500, error := some "Server configuration error", transaction := none, buildCalls := 0 }
  else if !strTruthy adminAddress then
    { status := 500, error := some "Server configuration error", transaction := none, buildCalls := 0 }
  else if !(strTruthy body.poolAddress && strTruthy body.payerAddress
      && body.maxBaseAmount.isSome && body.maxQuoteAmount.isSome) then
    { status := 400, error := some "Missing required fields", transaction := none, buildCalls := 0 }
  else
    match parseKey (body.poolAddress.getD ""), parseKey (adminAddress.getD ""),
        parseKey (body.payerAddress.getD "") with
    | some _, some _, some _ =>
      if adminAddress ≠ body.payerAddress then
        { status := 403, error := some "Unauthorized: Only admin can claim fees"
          transaction := none, buildCalls := 0 }
      else
        match buildTx with
        | .ok tx =>
          { status := 200, error := none, transaction := some tx, buildCalls := 1 }
        | .error _ =>
          { status := 500, error := some "Failed to create claim transaction"
            transaction := none, buildCalls := 1 }
    | _, _, _ =>
      { status := 500, error := some "Failed to create claim transaction"
        transaction := none, buildCalls := 0 }

/-- One invocation of the balance handler: HTTP status, the `error`
field (if any), the fetched lamport balance (if any; the source
divides it by LAMPORTS_PER_SOL for display before responding, a
floating-point step outside this integer model), and how many RPC
calls (`connection.getBalance`) were made. -/
structure GetBalanceOutcome where
  status : Nat
  error : Option String
  balanceLamports : Option Nat
  rpcCalls : Nat
deriving DecidableEq, Repr

/-- The balance handler (`src/pages/api/user/get-balance.ts`): reject
non-POST, answer 400 `Address is required` when the `address` field is
falsy, 500 when `RPC_URL` is missing, then parse the public key (a
constructor throw lands in the catch-all 500) and query the balance
once. -/
def getBalanceHandler (method : String) (address : Option String)
    (rpcUrl : Option String) (parseKey : String → Option Nat)
    (getBalance : Except String Nat) : GetBalanceOutcome :=
  if method ≠ "POST" then
    { status := 405, error := some "Method not allowed", balanceLamports := none, rpcCalls := 0 }
  else if !strTruthy address then
    { status := 400, error := some "Address is required", balanceLamports := none, rpcCalls := 0 }
  else if !strTruthy rpcUrl then
    { status := 500, error := some "Server configuration error", balanceLamports := none, rpcCalls := 0 }
  else
    match parseKey (address.getD "") with
    | none =>
      { status := 500, error := some "Failed to fetch balance", balanceLamports := none, rpcCalls := 0 }
    | some _ =>
      match getBalance with
      | .ok lamports =>
        { status := 200, error := none, balanceLamports := some lamports, rpcCalls := 1 }
      | .error _ =>
        { status := 500, error := some "Failed to fetch balance", balanceLamports := none, rpcCalls := 1 }

/-- Counting the records satisfying a predicate and those failing it
partitions the list. -/
theorem countP_add_countP_not (p : FeeMetrics → Bool) (l : List FeeMetrics) :
    l.countP p + l.countP (fun r => !p r) = l.length := by
  induction l with
  | nil => simp
  | cons r rest ih => cases h : p r <;> simp [List.countP_cons, h] <;> omega

/-- Three-record demo set for the claim loop: every record meets a
zero threshold. -/
def claimDemoFees : List FeeMetrics :=
  [⟨"PoolA", 0, 200000000, 0, 0, 0, 0⟩,
   ⟨"PoolB", 0, 150000000, 0, 0, 0, 0⟩,
   ⟨"PoolC", 0, 300000000, 0, 0, 0, 0⟩]

/-- Demo pipeline oracle: submission fails for PoolB (a simulated
SubmitError, the "Failed to send transaction" throw); the other two
records succeed. -/
def claimDemoAttempt (f : FeeMetrics) : Except ClaimError String :=
  if f.poolAddress = "PoolB" then
    .error (.submitError "Failed to send transaction")
  else
    .ok "signature"

/-- C1: a failing draft/sign/submit pipeline increments failCount and
the loop continues with the next eligible record: every eligible
record is attempted in order regardless of failures, the completed
counters count the succeeding and failing records, and with three
eligible records of which exactly one fails the result is
successCount = 2 and failCount = 1. -/
theorem claim_C1_partial_failure_tolerant (fees : List FeeMetrics) (t : Nat)
    (attempt : FeeMetrics → Except ClaimError String)
    (h : poolsWithFees fees t ≠ []) :
    (claimAllFees fees t attempt).attempted =
        (poolsWithFees fees t).map (fun r => r.poolAddress) ∧
    (claimAllFees fees t attempt).outcome =
        .completed ((poolsWithFees fees t).countP (attemptSucceeds attempt))
          ((poolsWithFees fees t).countP (fun r => !attemptSucceeds attempt r)) ∧
    ((poolsWithFees fees t).length = 3 →
      (poolsWithFees fees t).countP (attemptSucceeds attempt) = 2 →
      (claimAllFees fees t attempt).outcome = .completed 2 1) := by
  have hrun := claimAllFees_nonempty fees t attempt h
  refine ⟨by rw [hrun], by rw [hrun], ?_⟩
  intro hlen hsucc
  have hcount := countP_add_countP_not (attemptSucceeds attempt) (poolsWithFees fees t)
  rw [hrun]
  simp only [hsucc]
  have : (poolsWithFees fees t).countP (fun r => !attemptSucceeds attempt r) = 1 := by
    omega
  rw [this]

/-- Witness for C1: on the three-record demo set with a zero threshold
and a pipeline failing exactly on PoolB, all three pools are attempted
and the run completes with successCount = 2 and failCount = 1. -/
theorem claim_C1_witness :
    (claimAllFees claimDemoFees 0 claimDemoAttempt).attempted =
        ["PoolA", "PoolB", "PoolC"] ∧
    (claimAllFees claimDemoFees 0 claimDemoAttempt).outcome = .completed 2 1 := by
  have h := claim_C1_partial_failure_tolerant claimDemoFees 0 claimDemoAttempt (by decide)
  exact ⟨by rw [h.1]; decide, h.2.2 (by decide) (by decide)⟩

/-- C4: the fee aggregation is a pure fold with arbitrary-precision
integer addition: the empty list yields all-zero totals, permuting the
records never changes any total, and sums are exact beyond 2^53
(9007199254740993 + 1 = 9007199254740994 in both partner-fee totals). -/
theorem claim_C4_aggregation_exact_fold :
    aggregateFees [] = ⟨0, 0, 0, 0⟩ ∧
    (∀ l1 l2 : List FeeMetrics, l1.Perm l2 → aggregateFees l1 = aggregateFees l2) ∧
    aggregateFees [bigFeeRecord, oneFeeRecord] = ⟨9007199254740994, 9007199254740994, 0, 0⟩ := by
  refine ⟨rfl, ?_, rfl⟩
  intro l1 l2 hp
  rw [aggregateFees_eq_sum, aggregateFees_eq_sum]
  simp only [FeeTotals.mk.injEq]
  exact ⟨(hp.map _).sum_eq, (hp.map _).sum_eq, (hp.map _).sum_eq, (hp.map _).sum_eq⟩

/-- Witness for C4: the permutation part applied to the two concrete
boundary records swapped. -/
theorem claim_C4_witness :
    aggregateFees [oneFeeRecord, bigFeeRecord] = aggregateFees [bigFeeRecord, oneFeeRecord] :=
  claim_C4_aggregation_exact_fold.2.1 [oneFeeRecord, bigFeeRecord]
    [bigFeeRecord, oneFeeRecord] (List.Perm.swap bigFeeRecord oneFeeRecord [])

/-- C5: a record is selected by the batched claim orchestrator iff its
partner-quote-fee is at least the threshold (inclusive integer
comparison), and with threshold 0 every record is selected, the
all-zero-fee records included. -/
theorem claim_C5_eligibility_threshold (fees : List FeeMetrics) (t : Nat) (r : FeeMetrics) :
    (r ∈ poolsWithFees fees t ↔ r ∈ fees ∧ t ≤ r.partnerQuoteFee) ∧
    poolsWithFees fees 0 = fees := by
  constructor
  · simp [poolsWithFees, List.mem_filter]
  · simp [poolsWithFees]

/-- C6: with an empty eligible set, `claimAllFees` returns immediately
with the "nothing to claim" signal, runs zero pipeline iterations, and
that signal is distinguishable from every completed-batch summary. -/
theorem claim_C6_empty_eligible_set (fees : List FeeMetrics) (t : Nat)
    (attempt : FeeMetrics → Except ClaimError String)
    (h : poolsWithFees fees t = []) :
    claimAllFees fees t attempt =
        { outcome := .nothingToClaim, attempted := [] } ∧
    ∀ s f, (ClaimAllOutcome.nothingToClaim ≠ ClaimAllOutcome.completed s f) := by
  refine ⟨by simp [claimAllFees, h], ?_⟩
  intro s f hcon
  cases hcon

/-- Witness for C6: a single record below the threshold leaves the
eligible set empty and yields the "nothing to claim" run. -/
theorem claim_C6_witness :
    claimAllFees [oneFeeRecord] 2 (fun _ => Except.ok "signature") =
      { outcome := .nothingToClaim, attempted := [] } :=
  (claim_C6_empty_eligible_set [oneFeeRecord] 2 _ (by decide)).1

/-- C10: every completed run over a non-empty eligible set satisfies
successCount + failCount = number of eligible records; the counters
are natural numbers, hence non-negative. -/
theorem claim_C10_counter_invariant (fees : List FeeMetrics) (t : Nat)
    (attempt : FeeMetrics → Except ClaimError String)
    (h : poolsWithFees fees t ≠ []) :
    ∃ s f : Nat, (claimAllFees fees t attempt).outcome = .completed s f ∧
      s + f = (poolsWithFees fees t).length := by
  have hrun := claimAllFees_nonempty fees t attempt h
  have hcount := countP_add_countP_not (attemptSucceeds attempt) (poolsWithFees fees t)
  refine ⟨_, _, by rw [hrun], by omega⟩

/-- Witness for C10: the three-record demo run with one failure tallies
2 + 1 = 3 attempts. -/
theorem claim_C10_witness :
    ∃ s f : Nat, (claimAllFees claimDemoFees 0 claimDemoAttempt).outcome = .completed s f ∧
      s + f = (poolsWithFees claimDemoFees 0).length :=
  claim_C10_counter_invariant claimDemoFees 0 claimDemoAttempt (by decide)

/-- C2: a pools-cache read with force = false while the stored entry is
within the 60,000 ms TTL returns the cached payload unchanged with
servedFromCache = true and performs zero Remote Data Source calls; in
the server variant the entry itself is also left in place, and in the
client variant (`fetchPools(false)`) the provider state is returned
untouched with zero endpoint fetches. The client hypothesis `60000 ≤
cnow` records that the wall clock is past the first minute of the Unix
epoch, which rules out the degenerate zero timestamp that JS
truthiness would treat as an absent entry. -/
theorem claim_C2_fresh_cache_hit (c : CachedData) (envOk : Bool)
    (now fetchTime : Nat) (remote : Except String (List PoolRecord))
    (st : ClientPoolsState) (t cnow cfetchTime : Nat)
    (cremote : Except String (List PoolRecord))
    (hfresh : now - c.timestamp < CACHE_DURATION_MS)
    (hlf : st.lastFetch = some t) (hepoch : 60000 ≤ cnow)
    (hcfresh : cnow - t < CACHE_DURATION_MS) :
    getAllPoolsHandler "GET" envOk (some c) now fetchTime remote =
      { response := .ok 200
          { pools := c.pools, count := c.pools.length, cached := true
            cacheAge := some ((now - c.timestamp) / 1000) }
        newCache := some c
        remoteCalls := 0 } ∧
    fetchPools st false cnow cfetchTime cremote =
      { state := st, storageWrite := none, remoteCalls := 0 } := by
  constructor
  · simp [getAllPoolsHandler, hfresh]
  · have ht : t ≠ 0 := by
      simp only [CACHE_DURATION_MS] at hcfresh
      omega
    simp [fetchPools, lastFetchFresh, hlf, ht, hcfresh]

/-- Witness for C2: a concrete fresh entry (age 1 ms server-side, 999
ms client-side) is served from cache with no remote call on either
variant. -/
theorem claim_C2_witness :
    getAllPoolsHandler "GET" true (some { pools := [], timestamp := 60000 })
        60001 0 (Except.error "down") =
      { response := .ok 200
          { pools := [], count := 0, cached := true, cacheAge := some 0 }
        newCache := some { pools := [], timestamp := 60000 }
        remoteCalls := 0 } ∧
    fetchPools { pools := [], errorMsg := none, lastFetch := some 60000 }
        false 60999 0 (Except.error "down") =
      { state := { pools := [], errorMsg := none, lastFetch := some 60000 }
        storageWrite := none, remoteCalls := 0 } :=
  claim_C2_fresh_cache_hit { pools := [], timestamp := 60000 } true 60001 0
    (Except.error "down") { pools := [], errorMsg := none, lastFetch := some 60000 }
    60000 60999 0 (Except.error "down") (by decide) rfl (by decide) (by decide)

/-- C3: a server cache read that misses (entry absent or stale) and
whose remote invocation fails answers the 500 transport error
"Failed to fetch pools" and leaves the stored cache entry exactly as
it was. -/
theorem claim_C3_error_path_preserves_cache (cachedData : Option CachedData)
    (now fetchTime : Nat) (msg : String)
    (hmiss : ∀ c, cachedData = some c → ¬(now - c.timestamp < CACHE_DURATION_MS)) :
    getAllPoolsHandler "GET" true cachedData now fetchTime (Except.error msg) =
      { response := .err 500 "Failed to fetch pools" (some msg)
        newCache := cachedData
        remoteCalls := 1 } := by
  cases cachedData with
  | none => simp [getAllPoolsHandler, getAllPoolsFetch]
  | some c =>
    have hstale := hmiss c rfl
    simp [getAllPoolsHandler, getAllPoolsFetch, hstale]

/-- Witness for C3: a stale entry (age exactly the TTL) together with a
failing remote leaves the entry in place and reports the 500. -/
theorem claim_C3_witness :
    getAllPoolsHandler "GET" true (some { pools := [], timestamp := 0 }) 60000 70000
        (Except.error "connection refused") =
      { response := .err 500 "Failed to fetch pools" (some "connection refused")
        newCache := some { pools := [], timestamp := 0 }
        remoteCalls := 1 } :=
  claim_C3_error_path_preserves_cache (some { pools := [], timestamp := 0 }) 60000 70000
    "connection refused" (by intro c hc; cases hc; decide)

/-- C7: when the value stored under the fixed localStorage key fails to
deserialize, the mount-time load treats it as a cache miss: the
resulting provider state is the initial one, whose pools list is empty
and whose error slot is null. -/
theorem claim_C7_bad_cache_is_miss (raw : String)
    (parse : String → Option StoredPoolsCache) (now : Nat)
    (h : parse raw = none) :
    loadPoolsFromStorage (some raw) parse now = initialClientPoolsState ∧
    initialClientPoolsState.pools = [] ∧
    initialClientPoolsState.errorMsg = none := by
  refine ⟨?_, rfl, rfl⟩
  simp [loadPoolsFromStorage, h]

/-- Witness for C7: a stored string rejected by the parser loads as the
initial (empty, error-free) state. -/
theorem claim_C7_witness :
    loadPoolsFromStorage (some "corrupt") (fun _ => none) 0 = initialClientPoolsState ∧
    initialClientPoolsState.pools = [] ∧
    initialClientPoolsState.errorMsg = none :=
  claim_C7_bad_cache_is_miss "corrupt" (fun _ => none) 0 rfl

/-- C8: a well-formed admin claim-fees request whose payer address
differs from the configured admin address is answered with HTTP 403
and the authorization error body, and the claim-transaction builder is
never invoked. -/
theorem claim_C8_unauthorized_payer (rpc admin pool payer maxB maxQ : String)
    (parseKey : String → Option Nat) (buildTx : Except String String)
    (hrpc : rpc ≠ "") (hadmin : admin ≠ "") (hpool : pool ≠ "") (hpayer : payer ≠ "")
    (hk1 : (parseKey pool).isSome) (hk2 : (parseKey admin).isSome)
    (hk3 : (parseKey payer).isSome) (hne : admin ≠ payer) :
    claimFeesHandler "POST" (some rpc) (some admin)
        { poolAddress := some pool, payerAddress := some payer
          maxBaseAmount := some maxB, maxQuoteAmount := some maxQ }
        parseKey buildTx =
      { status := 403, error := some "Unauthorized: Only admin can claim fees"
        transaction := none, buildCalls := 0 } := by
  obtain ⟨k1, e1⟩ := Option.isSome_iff_exists.mp hk1
  obtain ⟨k2, e2⟩ := Option.isSome_iff_exists.mp hk2
  obtain ⟨k3, e3⟩ := Option.isSome_iff_exists.mp hk3
  simp [claimFeesHandler, strTruthy, hrpc, hadmin, hpool, hpayer, e1, e2, e3, hne]

/-- Witness for C8: a concrete mismatched payer is refused with 403 and
zero builder calls. -/
theorem claim_C8_witness :
    claimFeesHandler "POST" (some "https://rpc.example") (some "AdminWallet")
        { poolAddress := some "Pool1", payerAddress := some "Intruder"
          maxBaseAmount := some "0", maxQuoteAmount := some "0" }
        (fun _ => some 0) (Except.ok "tx") =
      { status := 403, error := some "Unauthorized: Only admin can claim fees"
        transaction := none, buildCalls := 0 } :=
  claim_C8_unauthorized_payer "https://rpc.example" "AdminWallet" "Pool1" "Intruder"
    "0" "0" (fun _ => some 0) (Except.ok "tx")
    (by decide) (by decide) (by decide) (by decide) rfl rfl rfl (by decide)

/-- C9: a POST to the balance endpoint whose body lacks the address
field is answered 400 with the body error "Address is required", with
zero RPC calls, for every configuration and every oracle. -/
theorem claim_C9_missing_address (rpcUrl : Option String)
    (parseKey : String → Option Nat) (getBalance : Except String Nat) :
    getBalanceHandler "POST" none rpcUrl parseKey getBalance =
      { status := 400, error := some "Address is required"
        balanceLamports := none, rpcCalls := 0 } := by
  simp [getBalanceHandler, strTruthy]
